import Mathlib

/-!
Verification of the presence and session-authority subsystem of a chat
backend.  The JavaScript source is shallowly embedded: the in-memory
online-user registry becomes an association list from user ids to
entries, the socket connection handler and the moderation route handlers
become pure functions that return the new state together with the list
of transport effects they perform, and fallible persistent-store writes
are modelled by explicit success flags.
-/

namespace ChatBackend

/-- A presence entry: the value stored under a user id in the
`onlineUsers` object (`{ username, socketId }`). -/
structure Entry where
  username : String
  socketId : String
deriving DecidableEq, Repr

/-- The `onlineUsers` object (`src/unnamed/part_000`), embedded as an
association list from user id to entry, in insertion order. -/
abbrev Registry := List (Nat × Entry)

/-- Object indexing `onlineUsers[userId]`. -/
def getUser (r : Registry) (userId : Nat) : Option Entry :=
  (List.find? (fun p => p.1 == userId) r).map Prod.snd

/-- `addUser(userId, username, socketId)`: returns `false` and leaves the
registry unchanged when an entry for `userId` already exists; otherwise
stores the new entry and returns `true`. -/
def addUser (r : Registry) (userId : Nat) (username socketId : String) :
    Registry × Bool :=
  match getUser r userId with
  | some _ => (r, false)
  | none => (r ++ [(userId, ⟨username, socketId⟩)], true)

/-- `removeUser(userId)`: deletes the binding for `userId` when present,
otherwise a no-op. -/
def removeUser (r : Registry) (userId : Nat) : Registry :=
  match getUser r userId with
  | some _ => List.filter (fun p => !(p.1 == userId)) r
  | none => r

/-- `getUserSocketId(userId)`: `onlineUsers[userId]?.socketId || null`.
The JavaScript falsy check maps the empty string to `null` as well. -/
def getUserSocketId (r : Registry) (userId : Nat) : Option String :=
  match getUser r userId with
  | some e => if e.socketId = "" then none else some e.socketId
  | none => none

/-- `getAllUsernames()`: the display names of all present entries. -/
def getAllUsernames (r : Registry) : List String :=
  List.map (fun p => p.2.username) r

/-- `getAllUserIds()`: the keys of the registry. -/
def getAllUserIds (r : Registry) : List Nat :=
  List.map (fun p => p.1) r

/-- The registry invariant: each user id has at most one entry.  A
JavaScript object cannot hold two bindings for one key; in the
association-list embedding this is the statement that the number of
pairs carrying a given key never exceeds one. -/
def atMostOnePerUser (r : Registry) : Prop :=
  ∀ u : Nat, List.countP (fun p => p.1 == u) r ≤ 1

/-- Event payloads sent over the socket transport. -/
inductive Payload where
  | empty
  | userIdOnly (userId : Nat)
  | punishment (userId : Nat) (reason : String) (expiresAt : Option Nat)
  | names (l : List String)
deriving DecidableEq, Repr

/-- Transport-level actions performed by the connection handler in
`src/sockets/chatSocket.js`. -/
inductive Action where
  | emitTo (socketId : String) (event : String) (payload : Payload)
  | closeSocket (socketId : String)
  | waitMs (n : Nat)
  | broadcast (event : String) (payload : Payload)
  | disconnectSelf
deriving DecidableEq, Repr

/-- A `UserToken` row of the session store:
`{token, userId, isValid, expiresAt}` (device and address columns are
not read by the subsystem under verification). -/
structure SessionRecord where
  token : String
  userId : Nat
  isValid : Bool
  expiresAt : Nat
deriving DecidableEq, Repr

/-- `UserToken.findOne({where: {token, isValid: true, expiresAt: gt now}})`:
the first stored row matching the token that is still valid and unexpired. -/
def findActiveSession (store : List SessionRecord) (token : String) (now : Nat) :
    Option SessionRecord :=
  List.find? (fun s => s.token == token && s.isValid && decide (now < s.expiresAt)) store

/-- The payload of a successfully verified credential: `decoded.id` and
`decoded.username`. -/
structure Decoded where
  id : Nat
  username : String
deriving DecidableEq, Repr

/-- The eviction block run when a user id is already online: emit a
targeted `force_logout` carrying the user id to the existing socket,
force-disconnect that socket, then await a 100 ms timeout. -/
def conflictResolution (existingSocketId : String) (userId : Nat) : List Action :=
  [Action.emitTo existingSocketId "force_logout" (Payload.userIdOnly userId),
   Action.closeSocket existingSocketId,
   Action.waitMs 100]

/-- Result of one run of the connection handler: the transport actions
performed, the registry afterwards, and whether the connection was
admitted (its event handlers installed). -/
structure ConnResult where
  actions : List Action
  registry : Registry
  admitted : Bool
deriving DecidableEq, Repr

/-- The `io.on("connection", ...)` handler of `src/sockets/chatSocket.js`
up to and including the registration step, run without interleaving
(no other task touches the registry during its suspensions).  Missing
token, failed credential verification, or a missing active session
record each disconnect the socket with no other effect.  Otherwise the
handler runs the eviction block when the id is already online, then
calls `addUser`, ignoring its result, and installs the event handlers. -/
def connectionHandler (r : Registry) (store : List SessionRecord) (now : Nat)
    (token : Option String) (verify : String → Option Decoded)
    (selfSocketId : String) : ConnResult :=
  match token with
  | none => ⟨[Action.disconnectSelf], r, false⟩
  | some t =>
    match verify t with
    | none => ⟨[Action.disconnectSelf], r, false⟩
    | some d =>
      match findActiveSession store t now with
      | none => ⟨[Action.disconnectSelf], r, false⟩
      | some _ =>
        match getUserSocketId r d.id with
        | some sid =>
          ⟨conflictResolution sid d.id, (addUser r d.id d.username selfSocketId).1, true⟩
        | none =>
          ⟨[], (addUser r d.id d.username selfSocketId).1, true⟩

/-- The `disconnect` handler installed on an admitted connection: it
unregisters its user id (whatever entry is present) and broadcasts the
refreshed presence list.  The closure captures only the user id, not
the socket id of the connection it belongs to. -/
def disconnectHandler (r : Registry) (userId : Nat) : Registry × List Action :=
  let r2 := removeUser r userId
  (r2, [Action.broadcast "chat_update_users" (Payload.names (getAllUsernames r2))])

/-- A `Punishment` row: `{userId, issuedById, type, reason, expiresAt}`. -/
structure PunishmentRecord where
  userId : Nat
  issuedById : Nat
  ptype : String
  reason : String
  expiresAt : Option Nat
deriving DecidableEq, Repr

/-- `Punishment.findOne({where: {userId, type: "mute"}})`. -/
def findMute (punishments : List PunishmentRecord) (userId : Nat) :
    Option PunishmentRecord :=
  List.find? (fun p => p.userId == userId && p.ptype == "mute") punishments

/-- The `entered_chat` handler of an admitted connection for `userId` on
socket `selfSocketId`: broadcast the updated presence list to everyone,
then look up a mute punishment record and, when one exists, emit a
targeted mute notice carrying its reason and expiry to this socket. -/
def enteredChat (r : Registry) (punishments : List PunishmentRecord)
    (userId : Nat) (selfSocketId : String) : List Action :=
  Action.broadcast "chat_update_users" (Payload.names (getAllUsernames r)) ::
  (match findMute punishments userId with
   | some m =>
     [Action.emitTo selfSocketId "notify_user_muted"
       (Payload.punishment userId m.reason m.expiresAt)]
   | none => [])

/-- Shared state read and written by the moderation route handlers:
the session store, the punishment store, and the presence registry. -/
structure ModState where
  sessions : List SessionRecord
  punishments : List PunishmentRecord
  registry : Registry
deriving DecidableEq, Repr

/-- Effects performed by a moderation route handler, in order.  The
first two are persistent-store writes; the rest act on live
connections or arm a timer. -/
inductive Effect where
  | revokeAllSessions (userId : Nat)
  | createPunishment (rec : PunishmentRecord)
  | emitTo (socketId : String) (event : String) (payload : Payload)
  | closeSocket (socketId : String)
  | unregister (userId : Nat)
  | broadcast (event : String) (payload : Payload)
  | scheduleExpiry (userId : Nat) (ptype : String) (delayMs : Nat)
deriving DecidableEq, Repr

/-- Whether an effect acts on live connections or the presence registry
(as opposed to a persistent-store write or arming a timer). -/
def isLiveEffect : Effect → Bool
  | Effect.emitTo _ _ _ => true
  | Effect.closeSocket _ => true
  | Effect.unregister _ => true
  | Effect.broadcast _ _ => true
  | _ => false

/-- `UserToken.update({isValid: false}, {where: {userId, isValid: true}})`. -/
def invalidateAllForUser (sessions : List SessionRecord) (userId : Nat) :
    List SessionRecord :=
  List.map
    (fun s => if s.userId == userId && s.isValid then { s with isValid := false } else s)
    sessions

/-- Outcome of a moderation route: the JSON success message or the
500-error message from the catch block. -/
inductive ModOutcome where
  | ok (msg : String)
  | error (msg : String)
deriving DecidableEq, Repr

/-- The `POST /ban/:id` handler of `src/routes/adminRoutes.js`.
`updateOk` and `createOk` say whether the two awaited store writes
succeed; a throwing write transfers control to the catch block, which
answers with a structured 500 failure.  On success the handler revokes
all valid sessions of the target, creates the ban record, then — and
only then — notifies and force-disconnects the target when online,
unregisters it, broadcasts the public ban notice, and arms the expiry
timer when a duration was given. -/
def applyBan (st : ModState) (issuerId targetUserId : Nat) (reason : Option String)
    (duration : Option Nat) (now : Nat) (updateOk createOk : Bool) :
    ModState × List Effect × ModOutcome :=
  let expiresAt := Option.map (fun d => now + d * 60000) duration
  if !updateOk then
    (st, [], ModOutcome.error "Failed to ban user.")
  else
    let st1 := { st with sessions := invalidateAllForUser st.sessions targetUserId }
    if !createOk then
      (st1, [Effect.revokeAllSessions targetUserId], ModOutcome.error "Failed to ban user.")
    else
      let rec0 : PunishmentRecord :=
        ⟨targetUserId, issuerId, "ban", Option.getD reason "No reason provided", expiresAt⟩
      let st2 := { st1 with punishments := st1.punishments ++ [rec0] }
      let storeFx := [Effect.revokeAllSessions targetUserId, Effect.createPunishment rec0]
      let liveFx :=
        match getUserSocketId st2.registry targetUserId with
        | some sid =>
          [Effect.emitTo sid "user_banned"
            (Payload.punishment targetUserId rec0.reason expiresAt),
           Effect.closeSocket sid,
           Effect.unregister targetUserId]
        | none => []
      let st3 :=
        match getUserSocketId st2.registry targetUserId with
        | some _ => { st2 with registry := removeUser st2.registry targetUserId }
        | none => st2
      let timerFx :=
        match expiresAt with
        | some _ => [Effect.scheduleExpiry targetUserId "ban" (Option.getD duration 0 * 60000)]
        | none => []
      (st3,
       storeFx ++ liveFx ++
         [Effect.broadcast "notify_user_banned"
           (Payload.punishment targetUserId rec0.reason expiresAt)] ++ timerFx,
       ModOutcome.ok "banned")

/-- The `POST /mute/:id` handler: create the mute record, notify the
target when online with a targeted `user_muted`, broadcast the public
notice, and arm the expiry timer when a duration was given. -/
def applyMute (st : ModState) (issuerId targetUserId : Nat) (reason : Option String)
    (duration : Option Nat) (now : Nat) (createOk : Bool) :
    ModState × List Effect × ModOutcome :=
  let expiresAt := Option.map (fun d => now + d * 60000) duration
  if !createOk then
    (st, [], ModOutcome.error "Failed to mute user.")
  else
    let rec0 : PunishmentRecord :=
      ⟨targetUserId, issuerId, "mute", Option.getD reason "No reason provided", expiresAt⟩
    let st1 := { st with punishments := st.punishments ++ [rec0] }
    let targetedFx :=
      match getUserSocketId st.registry targetUserId with
      | some sid =>
        [Effect.emitTo sid "user_muted"
          (Payload.punishment targetUserId rec0.reason expiresAt)]
      | none => []
    let timerFx :=
      match expiresAt with
      | some _ => [Effect.scheduleExpiry targetUserId "mute" (Option.getD duration 0 * 60000)]
      | none => []
    (st1,
     [Effect.createPunishment rec0] ++ targetedFx ++
       [Effect.broadcast "notify_user_muted"
         (Payload.punishment targetUserId rec0.reason expiresAt)] ++ timerFx,
     ModOutcome.ok "muted")

/-- `Punishment.destroy({where: {userId, type}})`: delete every
punishment row of that type for that user. -/
def destroyPunishments (punishments : List PunishmentRecord) (userId : Nat)
    (ptype : String) : List PunishmentRecord :=
  List.filter (fun p => !(p.userId == userId && p.ptype == ptype)) punishments

/-- The `POST /unmute/:id` handler: destroy all mute rows for the
target (a no-op when none exist), then broadcast `user_unmuted`
unconditionally.  `destroyOk` says whether the awaited destroy
succeeds; a throw answers with the structured 500 failure. -/
def unmute (st : ModState) (targetUserId : Nat) (destroyOk : Bool) :
    ModState × List Effect × ModOutcome :=
  if !destroyOk then
    (st, [], ModOutcome.error "Failed to unmute user.")
  else
    ({ st with punishments := destroyPunishments st.punishments targetUserId "mute" },
     [Effect.broadcast "user_unmuted" (Payload.userIdOnly targetUserId)],
     ModOutcome.ok "unmuted")

/-- The body of the mute auto-expiry `setTimeout` callback: destroy all
mute rows for the target, then broadcast `user_unmuted`. -/
def muteExpiryFire (st : ModState) (targetUserId : Nat) : ModState × List Effect :=
  ({ st with punishments := destroyPunishments st.punishments targetUserId "mute" },
   [Effect.broadcast "user_unmuted" (Payload.userIdOnly targetUserId)])

/-- The body of the ban auto-expiry `setTimeout` callback: destroy all
ban rows for the target, then broadcast `user_unbanned`. -/
def banExpiryFire (st : ModState) (targetUserId : Nat) : ModState × List Effect :=
  ({ st with punishments := destroyPunishments st.punishments targetUserId "ban" },
   [Effect.broadcast "user_unbanned" (Payload.userIdOnly targetUserId)])

theorem getUser_eq_none_iff (r : Registry) (u : Nat) :
    getUser r u = none ↔ ∀ p ∈ r, ¬ p.1 = u := by
  simp [getUser, List.find?_eq_none]

theorem getUser_append_right_self (r : Registry) (u : Nat) (e : Entry)
    (h : getUser r u = none) : getUser (r ++ [(u, e)]) u = some e := by
  have hf : List.find? (fun p => p.1 == u) r = none := by
    simpa [getUser] using h
  simp [getUser, List.find?_append, hf]

theorem countP_key_eq_zero_of_getUser_none (r : Registry) (u : Nat)
    (h : getUser r u = none) :
    List.countP (fun p => p.1 == u) r = 0 := by
  rw [List.countP_eq_zero]
  intro p hp
  simpa using (getUser_eq_none_iff r u).1 h p hp

theorem getUser_removeUser_self (r : Registry) (u : Nat) :
    getUser (removeUser r u) u = none := by
  cases hg : getUser r u with
  | none => simp [removeUser, hg]
  | some e =>
    rw [getUser_eq_none_iff]
    intro p hp
    have hp2 : p ∈ r ∧ ¬ p.1 = u := by simpa [removeUser, hg] using hp
    exact hp2.2

theorem mem_removeUser_of_ne (r : Registry) (u : Nat) (p : Nat × Entry)
    (hp : p ∈ r) (hne : ¬ p.1 = u) : p ∈ removeUser r u := by
  cases hg : getUser r u with
  | none => simpa [removeUser, hg] using hp
  | some e =>
    simp only [removeUser, hg]
    exact List.mem_filter.2 ⟨hp, by simpa using hne⟩

theorem getUser_of_getUserSocketId_some (r : Registry) (u : Nat) (sid : String)
    (h : getUserSocketId r u = some sid) : ∃ e, getUser r u = some e := by
  cases hg : getUser r u with
  | none => simp [getUserSocketId, hg] at h
  | some e => exact ⟨e, rfl⟩

/-- C7: `addUser` returns conflict (`false`) whenever an entry for the
user id already exists, leaving the registry unchanged — it never
overwrites silently; when no entry exists it returns `true` and creates
exactly one entry for that id. -/
theorem addUser_never_overwrites (r : Registry) (u : Nat) (n s : String) :
    (getUser r u ≠ none →
      (addUser r u n s).2 = false ∧ (addUser r u n s).1 = r) ∧
    (getUser r u = none →
      (addUser r u n s).2 = true ∧
      getUser (addUser r u n s).1 u = some ⟨n, s⟩ ∧
      List.countP (fun p => p.1 == u) (addUser r u n s).1 = 1) := by
  constructor
  · intro h
    cases hg : getUser r u with
    | none => exact absurd hg h
    | some e => simp [addUser, hg]
  · intro hg
    refine ⟨by simp [addUser, hg], ?_, ?_⟩
    · simpa [addUser, hg] using getUser_append_right_self r u ⟨n, s⟩ hg
    · simp [addUser, hg, List.countP_append,
        countP_key_eq_zero_of_getUser_none r u hg]

/-- C7 witness: on the singleton registry holding user 1, re-adding
user 1 reports conflict and leaves the registry unchanged. -/
theorem addUser_never_overwrites_witness :
    (addUser [(1, ⟨"alice", "s1"⟩)] 1 "bob" "s2").2 = false ∧
    (addUser [(1, ⟨"alice", "s1"⟩)] 1 "bob" "s2").1 = [(1, ⟨"alice", "s1"⟩)] :=
  (addUser_never_overwrites [(1, ⟨"alice", "s1"⟩)] 1 "bob" "s2").1 (by decide)

/-- C1: every registry mutation preserves the invariant that each user
id has at most one presence entry, and a duplicate-login attempt
(adding an id that is already present) leaves the registry unchanged.
The remaining operations (`getUserSocketId`, `getAllUsernames`) are
pure reads of the registry and mutate nothing by construction. -/
theorem registry_at_most_one_entry (r : Registry) (u v : Nat) (n s : String)
    (h : atMostOnePerUser r) :
    atMostOnePerUser (addUser r u n s).1 ∧
    atMostOnePerUser (removeUser r v) ∧
    (getUser r u ≠ none → (addUser r u n s).1 = r) := by
  refine ⟨?_, ?_, ?_⟩
  · cases hg : getUser r u with
    | some e => simpa [addUser, hg] using h
    | none =>
      intro w
      have hr := h w
      by_cases hw : u = w
      · subst hw
        simp [addUser, hg, List.countP_append,
          countP_key_eq_zero_of_getUser_none r u hg]
      · simpa [addUser, hg, List.countP_append, hw] using hr
  · cases hg : getUser r v with
    | none => simpa [removeUser, hg] using h
    | some e =>
      intro w
      simp only [removeUser, hg]
      exact le_trans ((List.filter_sublist r).countP_le _) (h w)
  · intro hne
    cases hg : getUser r u with
    | none => exact absurd hg hne
    | some e => simp [addUser, hg]

/-- C1 witness: starting from the singleton registry for user 1, both
mutations preserve the at-most-one-entry invariant. -/
theorem registry_at_most_one_entry_witness :
    atMostOnePerUser (addUser [(1, ⟨"alice", "s1"⟩)] 2 "bob" "s2").1 ∧
    atMostOnePerUser (removeUser [(1, ⟨"alice", "s1"⟩)] 1) := by
  have h1 : atMostOnePerUser [(1, ⟨"alice", "s1"⟩)] := by
    intro w
    simp [List.countP_cons]
    split <;> simp
  exact ⟨(registry_at_most_one_entry [(1, ⟨"alice", "s1"⟩)] 2 1 "bob" "s2" h1).1,
    (registry_at_most_one_entry [(1, ⟨"alice", "s1"⟩)] 2 1 "bob" "s2" h1).2.1⟩

/-- C3 counterexample: the registry holds the entry installed by a
newer connection (socket s2) for user 1; the disconnect handler of the
older connection for user 1 nevertheless deletes it — it does not
compare handles, so the newer entry is not left in place. -/
theorem disconnect_removes_newer_entry :
    (disconnectHandler [(1, ⟨"alice", "s2"⟩)] 1).1 = [] ∧
    ¬ getUser (disconnectHandler [(1, ⟨"alice", "s2"⟩)] 1).1 1 =
        some ⟨"alice", "s2"⟩ := by
  decide

/-- C3 amended: the disconnect handler of a connection for user id u
unconditionally unregisters u — it removes whatever presence entry is
stored for u, including one installed by a newer connection, keeps the
entries of all other users, and broadcasts the refreshed presence
list.  (The code has no compare-and-unregister step: the handler
closure does not even capture its own socket id.) -/
theorem disconnect_unregisters_unconditionally (r : Registry) (u : Nat) :
    (disconnectHandler r u).1 = removeUser r u ∧
    getUser (disconnectHandler r u).1 u = none ∧
    (∀ p ∈ r, ¬ p.1 = u → p ∈ (disconnectHandler r u).1) ∧
    (disconnectHandler r u).2 =
      [Action.broadcast "chat_update_users"
        (Payload.names (getAllUsernames (removeUser r u)))] := by
  refine ⟨rfl, getUser_removeUser_self r u, ?_, rfl⟩
  intro p hp hne
  exact mem_removeUser_of_ne r u p hp hne

/-- C3 amended witness: running the disconnect handler for user 1 on a
two-user registry clears the entry of user 1 and keeps user 2. -/
theorem disconnect_unregisters_unconditionally_witness :
    getUser (disconnectHandler [(1, ⟨"a", "s1"⟩), (2, ⟨"b", "s2"⟩)] 1).1 1 = none ∧
    (2, Entry.mk "b" "s2") ∈ (disconnectHandler [(1, ⟨"a", "s1"⟩), (2, ⟨"b", "s2"⟩)] 1).1 :=
  ⟨(disconnect_unregisters_unconditionally [(1, ⟨"a", "s1"⟩), (2, ⟨"b", "s2"⟩)] 1).2.1,
   (disconnect_unregisters_unconditionally [(1, ⟨"a", "s1"⟩), (2, ⟨"b", "s2"⟩)] 1).2.2.1
     (2, ⟨"b", "s2"⟩) (by decide) (by decide)⟩

/-- C4: a connection is admitted only when a token is present, the
credential verifies, and the session store holds a record for that
token with isValid true and expiry strictly in the future; when any
check fails the handler disconnects the socket and the registry is
untouched.  In particular a revoked session never admits a connection
even if unexpired. -/
theorem admission_requires_valid_session (r : Registry)
    (store : List SessionRecord) (now : Nat) (token : Option String)
    (verify : String → Option Decoded) (selfSocketId : String) :
    ((connectionHandler r store now token verify selfSocketId).admitted = true →
      ∃ t d srec, token = some t ∧ verify t = some d ∧
        findActiveSession store t now = some srec ∧
        srec.token = t ∧ srec.isValid = true ∧ now < srec.expiresAt) ∧
    ((connectionHandler r store now token verify selfSocketId).admitted = false →
      (connectionHandler r store now token verify selfSocketId).registry = r ∧
      (connectionHandler r store now token verify selfSocketId).actions =
        [Action.disconnectSelf]) := by
  cases token with
  | none => exact ⟨by simp [connectionHandler], by simp [connectionHandler]⟩
  | some t =>
    cases hv : verify t with
    | none => exact ⟨by simp [connectionHandler, hv], by simp [connectionHandler, hv]⟩
    | some d =>
      cases hs : findActiveSession store t now with
      | none =>
        exact ⟨by simp [connectionHandler, hv, hs], by simp [connectionHandler, hv, hs]⟩
      | some srec =>
        have hprop : srec.token = t ∧ srec.isValid = true ∧ now < srec.expiresAt := by
          have h2 : (srec.token = t ∧ srec.isValid = true) ∧ now < srec.expiresAt := by
            simpa using List.find?_some hs
          exact ⟨h2.1.1, h2.1.2, h2.2⟩
        refine ⟨fun _ => ⟨t, d, srec, rfl, hv, hs, hprop.1, hprop.2.1, hprop.2.2⟩, ?_⟩
        intro hfalse
        exfalso
        cases hg : getUserSocketId r d.id <;>
          simp [connectionHandler, hv, hs, hg] at hfalse

/-- C4 witness: a session record that is unexpired but revoked
(isValid false) does not admit the connection, and the handler leaves
the registry untouched. -/
theorem admission_requires_valid_session_witness :
    (connectionHandler [] [⟨"tok", 1, false, 100⟩] 0 (some "tok")
        (fun _ => some ⟨1, "alice"⟩) "s9").registry = [] ∧
    (connectionHandler [] [⟨"tok", 1, false, 100⟩] 0 (some "tok")
        (fun _ => some ⟨1, "alice"⟩) "s9").actions = [Action.disconnectSelf] :=
  (admission_requires_valid_session [] [⟨"tok", 1, false, 100⟩] 0 (some "tok")
    (fun _ => some ⟨1, "alice"⟩) "s9").2 (by decide)

/-- C2 counterexample: user 1 is online on socket s1 and its entry is
still present when the new connection on socket s2 registers (the
grace wait was insufficient).  `addUser` reports conflict, yet the
handler performs no further eviction — its actions are exactly the one
pre-register eviction block — and the new connection ends admitted
while the registry still points at the old socket, not at s2. -/
theorem register_conflict_not_retried :
    (addUser [(1, ⟨"alice", "s1"⟩)] 1 "alice" "s2").2 = false ∧
    connectionHandler [(1, ⟨"alice", "s1"⟩)] [⟨"tok", 1, true, 100⟩] 0 (some "tok")
        (fun _ => some ⟨1, "alice"⟩) "s2" =
      ⟨conflictResolution "s1" 1, [(1, ⟨"alice", "s1"⟩)], true⟩ ∧
    ¬ getUserSocketId (connectionHandler [(1, ⟨"alice", "s1"⟩)]
        [⟨"tok", 1, true, 100⟩] 0 (some "tok")
        (fun _ => some ⟨1, "alice"⟩) "s2").registry 1 = some "s2" := by
  decide

/-- C2 amended: when the conflict persists at register time (the
evicted connection has not yet unregistered), the supervisor calls
register exactly once, the call reports conflict, and the handler
ignores the result: it performs no retry and no action beyond the one
eviction block, leaving the new connection admitted while the stale
entry remains registered. -/
theorem register_conflict_ignored (r : Registry) (store : List SessionRecord)
    (now : Nat) (t : String) (verify : String → Option Decoded) (d : Decoded)
    (srec : SessionRecord) (sid selfSocketId : String)
    (hv : verify t = some d)
    (hs : findActiveSession store t now = some srec)
    (hc : getUserSocketId r d.id = some sid) :
    connectionHandler r store now (some t) verify selfSocketId =
      ⟨conflictResolution sid d.id, r, true⟩ ∧
    (addUser r d.id d.username selfSocketId).2 = false := by
  obtain ⟨e, he⟩ := getUser_of_getUserSocketId_some r d.id sid hc
  constructor
  · simp [connectionHandler, hv, hs, hc, addUser, he]
  · simp [addUser, he]

/-- C2 amended witness: the concrete conflicted admission for user 1,
showing the register conflict is ignored and nothing follows the
eviction block. -/
theorem register_conflict_ignored_witness :
    connectionHandler [(1, ⟨"alice", "s1"⟩)] [⟨"tok", 1, true, 100⟩] 0 (some "tok")
        (fun _ => some ⟨1, "bob"⟩) "s2" =
      ⟨conflictResolution "s1" 1, [(1, ⟨"alice", "s1"⟩)], true⟩ :=
  (register_conflict_ignored [(1, ⟨"alice", "s1"⟩)] [⟨"tok", 1, true, 100⟩] 0 "tok"
    (fun _ => some ⟨1, "bob"⟩) ⟨1, "bob"⟩ ⟨"tok", 1, true, 100⟩ "s1" "s2"
    rfl (by decide) (by decide)).1

/-- C6 counterexample: in the concrete conflicted admission of user 1,
no targeted event named forced_logout with empty payload is ever sent;
the existing socket instead receives an event named force_logout whose
payload carries the user id. -/
theorem eviction_event_shape :
    Action.emitTo "s1" "forced_logout" Payload.empty ∉
      (connectionHandler [(7, ⟨"carol", "s1"⟩)] [⟨"tok", 7, true, 100⟩] 0 (some "tok")
        (fun _ => some ⟨7, "carol"⟩) "s2").actions ∧
    Action.emitTo "s1" "force_logout" (Payload.userIdOnly 7) ∈
      (connectionHandler [(7, ⟨"carol", "s1"⟩)] [⟨"tok", 7, true, 100⟩] 0 (some "tok")
        (fun _ => some ⟨7, "carol"⟩) "s2").actions := by
  decide

/-- C6 amended: when a new connection arrives for a user that is
already online, the existing socket receives a targeted force_logout
event whose payload carries the user id, the transport is instructed
to force-close that socket, and the supervisor waits a 100 ms grace
interval before registering the new connection. -/
theorem eviction_sequence (r : Registry) (store : List SessionRecord)
    (now : Nat) (t : String) (verify : String → Option Decoded) (d : Decoded)
    (srec : SessionRecord) (sid selfSocketId : String)
    (hv : verify t = some d)
    (hs : findActiveSession store t now = some srec)
    (hc : getUserSocketId r d.id = some sid) :
    (connectionHandler r store now (some t) verify selfSocketId).actions =
      [Action.emitTo sid "force_logout" (Payload.userIdOnly d.id),
       Action.closeSocket sid,
       Action.waitMs 100] := by
  simp [connectionHandler, hv, hs, hc, conflictResolution]

/-- C6 amended witness: the concrete eviction sequence sent to socket
s1 when user 7 connects a second time. -/
theorem eviction_sequence_witness :
    (connectionHandler [(7, ⟨"carol", "s1"⟩)] [⟨"tok", 7, true, 100⟩] 0 (some "tok")
        (fun _ => some ⟨7, "carol"⟩) "s2").actions =
      [Action.emitTo "s1" "force_logout" (Payload.userIdOnly 7),
       Action.closeSocket "s1",
       Action.waitMs 100] :=
  eviction_sequence [(7, ⟨"carol", "s1"⟩)] [⟨"tok", 7, true, 100⟩] 0 "tok"
    (fun _ => some ⟨7, "carol"⟩) ⟨7, "carol"⟩ ⟨"tok", 7, true, 100⟩ "s1" "s2"
    rfl (by decide) (by decide)

/-- C5: in the ban route, both persistent-store writes (revoking all
valid sessions of the target and creating the ban punishment record)
complete before any live-connection side effect: the longest prefix of
the effect trace free of live effects is exactly the two store writes.
When either store write fails, the trace contains no live-connection
side effect at all, the caller receives the structured failure, and
the registry is untouched. -/
theorem applyBan_writes_before_live_effects (st : ModState)
    (issuerId targetUserId : Nat) (reason : Option String)
    (duration : Option Nat) (now : Nat) (updateOk createOk : Bool) :
    (updateOk = true → createOk = true →
      List.takeWhile (fun e => !(isLiveEffect e))
          (applyBan st issuerId targetUserId reason duration now updateOk createOk).2.1 =
        [Effect.revokeAllSessions targetUserId,
         Effect.createPunishment
           ⟨targetUserId, issuerId, "ban", Option.getD reason "No reason provided",
            Option.map (fun d => now + d * 60000) duration⟩]) ∧
    ((updateOk = false ∨ createOk = false) →
      (∀ e ∈ (applyBan st issuerId targetUserId reason duration now updateOk createOk).2.1,
         ¬ isLiveEffect e = true) ∧
      (applyBan st issuerId targetUserId reason duration now updateOk createOk).2.2 =
        ModOutcome.error "Failed to ban user." ∧
      (applyBan st issuerId targetUserId reason duration now updateOk createOk).1.registry =
        st.registry) := by
  cases updateOk with
  | false =>
    refine ⟨fun h => by simp at h, fun _ => ?_⟩
    refine ⟨?_, ?_, ?_⟩ <;> simp [applyBan]
  | true =>
    cases createOk with
    | false =>
      refine ⟨fun _ h => by simp at h, fun _ => ?_⟩
      refine ⟨?_, ?_, ?_⟩ <;> simp [applyBan, isLiveEffect]
    | true =>
      refine ⟨fun _ _ => ?_, fun h => by rcases h with h | h <;> simp at h⟩
      cases hg : getUserSocketId st.registry targetUserId <;>
        simp [applyBan, hg, isLiveEffect]

/-- C5 witness: banning online user 7 for 10 minutes with both store
writes succeeding puts exactly the session revocation and the record
creation before the first live-connection side effect. -/
theorem applyBan_writes_before_live_effects_witness :
    List.takeWhile (fun e => !(isLiveEffect e))
        (applyBan ⟨[⟨"tok", 7, true, 100⟩], [], [(7, ⟨"dave", "s7"⟩)]⟩ 1 7
          (some "spam") (some 10) 0 true true).2.1 =
      [Effect.revokeAllSessions 7,
       Effect.createPunishment ⟨7, 1, "ban", "spam", some 600000⟩] :=
  (applyBan_writes_before_live_effects ⟨[⟨"tok", 7, true, 100⟩], [], [(7, ⟨"dave", "s7"⟩)]⟩
    1 7 (some "spam") (some 10) 0 true true).1 rfl rfl

/-- C8: on the entered signal, the updated presence list is broadcast
to all connections, and a targeted mute notice goes to the entering
socket exactly when a mute punishment record for that user exists in
the store (the record that makes the mute active in the punishment
lifecycle), carrying that record's reason and expiry; in particular,
after a permanent mute (`applyMute` with null duration) the delivered
notice carries a null expiry. -/
theorem enteredChat_mute_notice (r : Registry)
    (ps : List PunishmentRecord) (u : Nat) (sid : String) :
    (findMute ps u = none →
      enteredChat r ps u sid =
        [Action.broadcast "chat_update_users" (Payload.names (getAllUsernames r))]) ∧
    (∀ m, findMute ps u = some m →
      enteredChat r ps u sid =
        [Action.broadcast "chat_update_users" (Payload.names (getAllUsernames r)),
         Action.emitTo sid "notify_user_muted" (Payload.punishment u m.reason m.expiresAt)]) ∧
    (∀ (st : ModState) (issuerId : Nat) (reason : Option String) (now : Nat),
      findMute st.punishments u = none →
      Action.emitTo sid "notify_user_muted"
          (Payload.punishment u (Option.getD reason "No reason provided") none) ∈
        enteredChat (applyMute st issuerId u reason none now true).1.registry
          (applyMute st issuerId u reason none now true).1.punishments u sid) := by
  refine ⟨fun h => by simp [enteredChat, h], fun m h => by simp [enteredChat, h], ?_⟩
  intro st issuerId reason now hnone
  have hb : List.find? (fun p => p.userId == u && p.ptype == "mute") st.punishments
      = none := by
    simpa [findMute] using hnone
  have hfind : findMute (applyMute st issuerId u reason none now true).1.punishments u =
      some ⟨u, issuerId, "mute", Option.getD reason "No reason provided", none⟩ := by
    simp [applyMute, findMute, List.find?_append, hb]
  simp [enteredChat, hfind]

/-- C8 witness: spec scenario 3 — after a permanent mute of user 3,
the entered signal from user 3 yields a mute notice with null expiry. -/
theorem enteredChat_mute_notice_witness :
    Action.emitTo "s3" "notify_user_muted" (Payload.punishment 3 "abuse" none) ∈
      enteredChat (applyMute ⟨[], [], []⟩ 2 3 (some "abuse") none 0 true).1.registry
        (applyMute ⟨[], [], []⟩ 2 3 (some "abuse") none 0 true).1.punishments 3 "s3" :=
  (enteredChat_mute_notice [] [] 3 "s3").2.2 ⟨[], [], []⟩ 2 (some "abuse") 0 rfl

/-- C9: the unmute route is idempotent in its observable broadcast:
two successive calls both broadcast user_unmuted for the target and
both report success, while after the first call no mute record for the
target remains for the second call to delete. -/
theorem unmute_idempotent_broadcast (st : ModState) (u : Nat) :
    (unmute st u true).2.1 = [Effect.broadcast "user_unmuted" (Payload.userIdOnly u)] ∧
    (unmute (unmute st u true).1 u true).2.1 =
      [Effect.broadcast "user_unmuted" (Payload.userIdOnly u)] ∧
    (unmute st u true).2.2 = ModOutcome.ok "unmuted" ∧
    (unmute (unmute st u true).1 u true).2.2 = ModOutcome.ok "unmuted" ∧
    findMute (unmute st u true).1.punishments u = none := by
  refine ⟨rfl, rfl, rfl, rfl, ?_⟩
  rw [findMute, List.find?_eq_none]
  intro p hp
  have h2 : p ∈ st.punishments ∧ (¬p.userId = u ∨ ¬p.ptype = "mute") := by
    simpa [unmute, destroyPunishments] using hp
  simp only [Bool.and_eq_true, beq_iff_eq, not_and_or]
  exact h2.2

/-- C10: when a timed punishment expiry timer fires for a user and
type, it deletes every punishment record of that type for that user —
not only the record that armed the timer — keeps records of other
users or types, and then broadcasts the corresponding un-event.  This
holds for both the mute and the ban timer. -/
theorem expiry_timer_deletes_all_records (st : ModState) (u : Nat) :
    (∀ p ∈ st.punishments, p.userId = u → p.ptype = "mute" →
       p ∉ (muteExpiryFire st u).1.punishments) ∧
    (∀ p ∈ st.punishments, ¬ (p.userId = u ∧ p.ptype = "mute") →
       p ∈ (muteExpiryFire st u).1.punishments) ∧
    (muteExpiryFire st u).2 = [Effect.broadcast "user_unmuted" (Payload.userIdOnly u)] ∧
    (∀ p ∈ st.punishments, p.userId = u → p.ptype = "ban" →
       p ∉ (banExpiryFire st u).1.punishments) ∧
    (banExpiryFire st u).2 = [Effect.broadcast "user_unbanned" (Payload.userIdOnly u)] := by
  refine ⟨?_, ?_, rfl, ?_, rfl⟩
  · intro p _ h1 h2 hmem
    have hfp : p ∈ st.punishments ∧ (¬p.userId = u ∨ ¬p.ptype = "mute") := by
      simpa [muteExpiryFire, destroyPunishments] using hmem
    rcases hfp.2 with h | h
    · exact h h1
    · exact h h2
  · intro p hp hne
    simp only [muteExpiryFire, destroyPunishments]
    refine List.mem_filter.2 ⟨hp, ?_⟩
    have hor := not_and_or.mp hne
    simpa using hor
  · intro p _ h1 h2 hmem
    have hfp : p ∈ st.punishments ∧ (¬p.userId = u ∨ ¬p.ptype = "ban") := by
      simpa [banExpiryFire, destroyPunishments] using hmem
    rcases hfp.2 with h | h
    · exact h h1
    · exact h h2

/-- C10 witness: with two distinct mute records for user 3 in the
store (the one that armed the timer and a later one), the firing mute
timer erases both, while a ban record of user 3 survives it. -/
theorem expiry_timer_deletes_all_records_witness :
    (⟨3, 1, "mute", "first", some 5⟩ : PunishmentRecord) ∉
      (muteExpiryFire ⟨[], [⟨3, 1, "mute", "first", some 5⟩,
        ⟨3, 2, "mute", "second", some 99⟩, ⟨3, 1, "ban", "b", none⟩], []⟩ 3).1.punishments ∧
    (⟨3, 2, "mute", "second", some 99⟩ : PunishmentRecord) ∉
      (muteExpiryFire ⟨[], [⟨3, 1, "mute", "first", some 5⟩,
        ⟨3, 2, "mute", "second", some 99⟩, ⟨3, 1, "ban", "b", none⟩], []⟩ 3).1.punishments ∧
    (⟨3, 1, "ban", "b", none⟩ : PunishmentRecord) ∈
      (muteExpiryFire ⟨[], [⟨3, 1, "mute", "first", some 5⟩,
        ⟨3, 2, "mute", "second", some 99⟩, ⟨3, 1, "ban", "b", none⟩], []⟩ 3).1.punishments :=
  ⟨(expiry_timer_deletes_all_records ⟨[], [⟨3, 1, "mute", "first", some 5⟩,
      ⟨3, 2, "mute", "second", some 99⟩, ⟨3, 1, "ban", "b", none⟩], []⟩ 3).1
      ⟨3, 1, "mute", "first", some 5⟩ (by simp) rfl rfl,
   (expiry_timer_deletes_all_records ⟨[], [⟨3, 1, "mute", "first", some 5⟩,
      ⟨3, 2, "mute", "second", some 99⟩, ⟨3, 1, "ban", "b", none⟩], []⟩ 3).1
      ⟨3, 2, "mute", "second", some 99⟩ (by simp) rfl rfl,
   (expiry_timer_deletes_all_records ⟨[], [⟨3, 1, "mute", "first", some 5⟩,
      ⟨3, 2, "mute", "second", some 99⟩, ⟨3, 1, "ban", "b", none⟩], []⟩ 3).2.1
      ⟨3, 1, "ban", "b", none⟩ (by simp) (by simp)⟩

end ChatBackend
